import Mathlib

/-!
Shallow embedding of the ReLIFE platform data layer authentication and
authorization-context pipeline, translated from
`src/service-api/src/service_api/app.py` (the complete module; the
`example-service-api` copy duplicates the same functions).

Outbound HTTP effects (identity-backend verification, Keycloak token
exchange, Keycloak role lookup) are modelled by a `World` of response
oracles, and each function additionally returns the list of outbound
calls it performed, so that "never calls the authorization server"
properties can be stated.
-/

/-- Configuration settings (class `Settings` in `app.py`), with the same
defaults for `admin_role_name` and `bucket_name`. -/
structure Settings where
  supabase_url : String
  supabase_key : String
  keycloak_client_id : String
  keycloak_client_secret : String
  admin_role_name : String := "relife_admin"
  bucket_name : String := "example_bucket"
deriving DecidableEq

/-- A validated Keycloak role (pydantic model `KeycloakRole`): `id` and
`name` are required, the remaining fields optional. -/
structure KeycloakRole where
  id : String
  name : String
  description : Option String := none
  composite : Option Bool := none
  clientRole : Option Bool := none
  containerId : Option String := none
deriving DecidableEq

/-- One raw JSON object of the role-mappings response body, before pydantic
validation: every field may be absent. -/
structure RawRole where
  id : Option String := none
  name : Option String := none
  description : Option String := none
  composite : Option Bool := none
  clientRole : Option Bool := none
  containerId : Option String := none
deriving DecidableEq

/-- Pydantic validation `KeycloakRole(**role)`: fails when a required field
(`id` or `name`) is absent from the raw entry. -/
def KeycloakRole.validate (role : RawRole) : Except String KeycloakRole :=
  match role.id, role.name with
  | some i, some n =>
      .ok { id := i, name := n, description := role.description,
            composite := role.composite, clientRole := role.clientRole,
            containerId := role.containerId }
  | none, _ => .error "validation error: field required: id"
  | _, none => .error "validation error: field required: name"

/-- The list comprehension `[KeycloakRole(**role) for role in roles]`:
entries are validated left to right and the first invalid entry aborts the
whole construction. -/
def parseRoles : List RawRole → Except String (List KeycloakRole)
  | [] => .ok []
  | role :: rest =>
      match KeycloakRole.validate role with
      | .error e => .error e
      | .ok k =>
          match parseRoles rest with
          | .error e => .error e
          | .ok ks => .ok (k :: ks)

/-- The inner `user` object of a gotrue `UserResponse`: stable id, optional
email, and the provider-supplied metadata map. -/
structure SupabaseUser where
  id : String
  email : Option String := none
  user_metadata : List (String × String) := []
deriving DecidableEq

/-- The gotrue `UserResponse` wrapper returned by `client.auth.get_user`. -/
structure UserResponse where
  user : SupabaseUser
deriving DecidableEq

/-- Pydantic model `AuthenticatedUser` from `app.py`. -/
structure AuthenticatedUser where
  token : String
  user : UserResponse
  keycloak_roles : Option (List KeycloakRole) := none
deriving DecidableEq

/-- Property `AuthenticatedUser.has_admin_role`. The source reads the
process-wide `get_settings()`; here the settings are an explicit argument.
`if not self.keycloak_roles` is falsy for both `None` and the empty list. -/
def AuthenticatedUser.has_admin_role (self : AuthenticatedUser)
    (settings : Settings) : Bool :=
  match self.keycloak_roles with
  | none => false
  | some roles =>
      if roles.isEmpty then false
      else roles.any (fun role => role.name == settings.admin_role_name)

/-- Property `AuthenticatedUser.user_id`. -/
def AuthenticatedUser.user_id (self : AuthenticatedUser) : String :=
  self.user.user.id

/-- FastAPI `HTTPException` restricted to the fields the module uses. -/
structure HTTPException where
  status_code : Nat
  detail : String
deriving DecidableEq

/-- Method `AuthenticatedUser.raise_if_not_admin`: raising is modelled as
returning `Except.error`. -/
def AuthenticatedUser.raise_if_not_admin (self : AuthenticatedUser)
    (settings : Settings) : Except HTTPException Unit :=
  if self.has_admin_role settings = false then
    .error { status_code := 403, detail := "User does not have admin role" }
  else
    .ok ()

/-- Supabase `ClientOptions`: only the headers matter to this module. -/
structure ClientOptions where
  headers : List (String × String) := []
deriving DecidableEq

/-- A constructed Supabase `AsyncClient`: the arguments that
`create_async_client` received. -/
structure AsyncClient where
  supabase_url : String
  supabase_key : String
  options : ClientOptions
deriving DecidableEq

/-- `get_service_client`: service-role client, no per-user header. -/
def get_service_client (settings : Settings) : AsyncClient :=
  { supabase_url := settings.supabase_url,
    supabase_key := settings.supabase_key,
    options := {} }

/-- `get_user_client`: user-scoped client carrying the caller's bearer
token as the Authorization header. -/
def get_user_client (current_user : AuthenticatedUser)
    (settings : Settings) : AsyncClient :=
  { supabase_url := settings.supabase_url,
    supabase_key := settings.supabase_key,
    options := { headers := [("Authorization", "Bearer " ++ current_user.token)] } }

/-- Fuel-driven worker for `pyReplace`; the fuel starts at the length of
the subject string, which suffices for the non-empty patterns used here. -/
def replaceAux (old new : List Char) : Nat → List Char → List Char
  | _, [] => []
  | 0, s => s
  | fuel + 1, c :: rest =>
      if old.isPrefixOf (c :: rest) then
        new ++ replaceAux old new fuel ((c :: rest).drop old.length)
      else
        c :: replaceAux old new fuel rest

/-- Python `s.replace(old, new)` for a non-empty `old`: replace every
non-overlapping occurrence, scanning left to right. -/
def pyReplace (s old new : String) : String :=
  ⟨replaceAux old.data new.data s.data.length s.data⟩

/-- Python `s.rstrip("/")`: remove every trailing slash character. -/
def pyRstripSlash (s : String) : String :=
  ⟨(s.data.reverse.dropWhile (fun c => c == '/')).reverse⟩

/-- The token endpoint URL built by `get_keycloak_token`. -/
def token_url (keycloak_url : String) : String :=
  keycloak_url ++ "/protocol/openid-connect/token"

/-- `role_mapper_base_url` from `get_keycloak_user_roles`:
`keycloak_url.replace("/realms", "/admin/realms").rstrip("/")`. -/
def role_mapper_base_url (keycloak_url : String) : String :=
  pyRstripSlash (pyReplace keycloak_url "/realms" "/admin/realms")

/-- `role_mapper_url` from `get_keycloak_user_roles`. -/
def role_mapper_url (keycloak_url user_id : String) : String :=
  role_mapper_base_url keycloak_url ++ "/users/" ++ user_id ++ "/role-mappings/realm"

/-- Response of the Keycloak token endpoint: HTTP status plus the
`access_token` field of the JSON body (`none` when absent/unparseable). -/
structure TokenResponse where
  status : Nat
  access_token : Option String := none
deriving DecidableEq

/-- Response of the Keycloak role-mappings endpoint: HTTP status plus the
JSON array body (`none` when the body is not a JSON array). -/
structure RolesResponse where
  status : Nat
  body : Option (List RawRole) := none
deriving DecidableEq

/-- One outbound HTTP call performed by the pipeline. -/
inductive CallEvent where
  | getUser (token : String)
  | postToken (url clientId clientSecret : String)
  | getRoles (url authHeader : String)
deriving DecidableEq

/-- True exactly for the calls that reach the authorization server
(Keycloak); the identity-backend verification call is not one. -/
def CallEvent.isAuthServerCall : CallEvent → Bool
  | .getUser _ => false
  | .postToken _ _ _ => true
  | .getRoles _ _ => true

/-- The environment of upstream services: how the identity backend answers
`auth.get_user`, and how the authorization server answers the token POST
and the role-mappings GET. -/
structure World where
  getUser : String → Except String UserResponse
  postToken : String → String → String → TokenResponse
  getRoles : String → String → RolesResponse

/-- httpx `raise_for_status` succeeds exactly on 2xx status codes. -/
def is2xx (code : Nat) : Bool := 200 ≤ code && code ≤ 299

/-- `get_keycloak_token`: POST the client-credentials grant to the token
endpoint; non-2xx raises (caught upstream as 401); a missing
`access_token` field raises a `KeyError`. Returns the outbound calls
performed alongside the result. -/
def get_keycloak_token (world : World)
    (keycloak_url client_id client_secret : String) :
    Except String String × List CallEvent :=
  let url := token_url keycloak_url
  let response := world.postToken url client_id client_secret
  let result : Except String String :=
    if is2xx response.status = false then
      .error ("HTTP status error " ++ toString response.status)
    else
      match response.access_token with
      | none => .error "KeyError: access_token"
      | some tok => .ok tok
  (result, [CallEvent.postToken url client_id client_secret])

/-- `get_keycloak_user_roles`: GET the realm role mappings with the admin
token as bearer authorization; non-2xx raises via `raise_for_status`.
Returns the outbound calls performed alongside the result. -/
def get_keycloak_user_roles (world : World)
    (keycloak_url admin_token user_id : String) :
    Except String (List RawRole) × List CallEvent :=
  let url := role_mapper_url keycloak_url user_id
  let authHeader := "Bearer " ++ admin_token
  let response := world.getRoles url authHeader
  let result : Except String (List RawRole) :=
    if is2xx response.status = false then
      .error ("HTTP status error " ++ toString response.status)
    else
      match response.body with
      | none => .error "JSON decode error"
      | some roles => .ok roles
  (result, [CallEvent.getRoles url authHeader])

/-- `_get_authenticated_user`: verify the bearer credential against the
identity backend, then optionally resolve Keycloak roles. Every exception
inside the `try` block is re-raised as `HTTPException(401, str(e))`.
Returns the outbound calls performed alongside the result. -/
def _get_authenticated_user (settings : Settings) (world : World)
    (credentials : String) (fetch_roles : Bool) :
    Except HTTPException AuthenticatedUser × List CallEvent :=
  let token := credentials
  match world.getUser token with
  | .error e =>
      (.error { status_code := 401, detail := e }, [CallEvent.getUser token])
  | .ok user =>
      let result : AuthenticatedUser := { token := token, user := user }
      if fetch_roles = false then
        (.ok result, [CallEvent.getUser token])
      else
        let user_metadata := user.user.user_metadata
        match user_metadata.lookup "provider_id" with
        | none =>
            (.error { status_code := 401, detail := "KeyError: provider_id" },
             [CallEvent.getUser token])
        | some keycloak_user_id =>
            match user_metadata.lookup "iss" with
            | none =>
                (.error { status_code := 401, detail := "KeyError: iss" },
                 [CallEvent.getUser token])
            | some keycloak_url =>
                match get_keycloak_token world keycloak_url
                    settings.keycloak_client_id settings.keycloak_client_secret with
                | (.error e, evs) =>
                    (.error { status_code := 401, detail := e },
                     CallEvent.getUser token :: evs)
                | (.ok realm_client_token, evs) =>
                    match get_keycloak_user_roles world keycloak_url
                        realm_client_token keycloak_user_id with
                    | (.error e, evs2) =>
                        (.error { status_code := 401, detail := e },
                         CallEvent.getUser token :: (evs ++ evs2))
                    | (.ok roles, evs2) =>
                        match parseRoles roles with
                        | .error e =>
                            (.error { status_code := 401, detail := e },
                             CallEvent.getUser token :: (evs ++ evs2))
                        | .ok kroles =>
                            (.ok { result with keycloak_roles := some kroles },
                             CallEvent.getUser token :: (evs ++ evs2))

/-- `get_authenticated_user_without_roles`. -/
def get_authenticated_user_without_roles (settings : Settings) (world : World)
    (credentials : String) :
    Except HTTPException AuthenticatedUser × List CallEvent :=
  _get_authenticated_user settings world credentials false

/-- `get_authenticated_user_with_roles`. -/
def get_authenticated_user_with_roles (settings : Settings) (world : World)
    (credentials : String) :
    Except HTTPException AuthenticatedUser × List CallEvent :=
  _get_authenticated_user settings world credentials true

/-- Modelled from the spec's words for claim C9 only: derive the
administrative base by substituting the realm path segment and leaving the
rest of the issuer URL unchanged. -/
def spec_role_mapper_url (issuer_url user_id : String) : String :=
  pyReplace issuer_url "/realms" "/admin/realms"
    ++ "/users/" ++ user_id ++ "/role-mappings/realm"

instance {ε α : Type} [DecidableEq ε] [DecidableEq α] :
    DecidableEq (Except ε α) := fun x y =>
  match x, y with
  | .ok a, .ok b =>
      if h : a = b then .isTrue (congrArg Except.ok h)
      else .isFalse (fun hc => h (Except.ok.inj hc))
  | .error a, .error b =>
      if h : a = b then .isTrue (congrArg Except.error h)
      else .isFalse (fun hc => h (Except.error.inj hc))
  | .ok _, .error _ => .isFalse (fun hc => Except.noConfusion hc)
  | .error _, .ok _ => .isFalse (fun hc => Except.noConfusion hc)

/-- Demonstration settings used by the concrete witnesses below. -/
def demoSettings : Settings :=
  { supabase_url := "https://supabase.local",
    supabase_key := "service-key",
    keycloak_client_id := "cid",
    keycloak_client_secret := "csecret" }

/-- An identity record whose metadata carries both `iss` and `provider_id`. -/
def userResponseA : UserResponse :=
  { user := { id := "u1", email := some "a@example.org",
              user_metadata := [("provider_id", "sub-1"),
                                ("iss", "https://idp/realms/r1")] } }

/-- An identity record whose metadata lacks `iss`. -/
def userResponseNoIss : UserResponse :=
  { user := { id := "u2", email := none,
              user_metadata := [("provider_id", "sub-2")] } }

/-- A well-formed raw role entry named after the default admin role. -/
def adminRawRole : RawRole := { id := some "1", name := some "relife_admin" }

/-- A raw role entry missing the required `name` field. -/
def namelessRawRole : RawRole := { id := some "2" }

/-- A world where everything succeeds: `"tok-A"` verifies to
`userResponseA`, the token exchange yields `"admin-tok"`, and the role
lookup returns the admin role. -/
def happyWorld : World :=
  { getUser := fun t => if t == "tok-A" then .ok userResponseA
               else .error "invalid token",
    postToken := fun _ _ _ => { status := 200, access_token := some "admin-tok" },
    getRoles := fun _ _ => { status := 200, body := some [adminRawRole] } }

/-- Like `happyWorld` but the role lookup answers HTTP 500. -/
def rolesDownWorld : World :=
  { happyWorld with getRoles := fun _ _ => { status := 500 } }

/-- Like `happyWorld` but the token exchange answers HTTP 503. -/
def tokenDownWorld : World :=
  { happyWorld with postToken := fun _ _ _ => { status := 503 } }

/-- Like `happyWorld` but the role payload contains an entry missing its
required `name` field. -/
def badRoleWorld : World :=
  { happyWorld with
    getRoles := fun _ _ =>
      { status := 200, body := some [adminRawRole, namelessRawRole] } }

/-- A world whose identity backend rejects every credential with a
distinctive raw error message. -/
def leakWorld : World :=
  { getUser := fun _ =>
      .error "RAW-UPSTREAM-ERROR: JWT signature rejected by identity backend",
    postToken := fun _ _ _ => { status := 200 },
    getRoles := fun _ _ => { status := 200 } }

/-- Like `happyWorld` but `"tok-B"` verifies to the record lacking `iss`. -/
def noIssWorld : World :=
  { happyWorld with
    getUser := fun t => if t == "tok-B" then .ok userResponseNoIss
               else .error "invalid token" }

/-- A concrete authenticated user holding token `"tok-A"`, no roles. -/
def aliceUser : AuthenticatedUser := { token := "tok-A", user := userResponseA }

/-- A concrete authenticated user holding token `"tok-B"`, no roles. -/
def bobUser : AuthenticatedUser := { token := "tok-B", user := userResponseNoIss }

/-- The validated form of `adminRawRole`. -/
def adminKeycloakRole : KeycloakRole := { id := "1", name := "relife_admin" }

/-- A concrete authenticated user whose resolved roles contain the default
admin role. -/
def adminUser : AuthenticatedUser :=
  { token := "tok-A", user := userResponseA,
    keycloak_roles := some [adminKeycloakRole] }

/-- A fixed prefix makes the bearer header value injective in the token. -/
theorem bearer_value_injective (a b : String)
    (h : "Bearer " ++ a = "Bearer " ++ b) : a = b := by
  have hd := congrArg String.data h
  simp [String.data_append] at hd
  exact String.ext hd

/-- C1: the scoped handle produced by `get_user_client` carries exactly the
identity's credential as its Authorization header, formatted as
`Bearer <token>`, and two identities with distinct credentials never
produce handles with the same (hence never swapped) headers. -/
theorem get_user_client_carries_own_credential (u : AuthenticatedUser)
    (s : Settings) :
    (get_user_client u s).options.headers
        = [("Authorization", "Bearer " ++ u.token)] ∧
    ∀ v : AuthenticatedUser, u.token ≠ v.token →
      (get_user_client u s).options.headers ≠
        (get_user_client v s).options.headers := by
  refine ⟨rfl, fun v hne h => hne ?_⟩
  have h' : "Bearer " ++ u.token = "Bearer " ++ v.token := by
    simpa [get_user_client] using h
  exact bearer_value_injective _ _ h'

/-- Witness for C1 at the concrete users `aliceUser` and `bobUser`. -/
theorem get_user_client_carries_own_credential_witness :
    (get_user_client aliceUser demoSettings).options.headers
        = [("Authorization", "Bearer " ++ aliceUser.token)] ∧
    (get_user_client aliceUser demoSettings).options.headers ≠
      (get_user_client bobUser demoSettings).options.headers := by
  obtain ⟨h1, h2⟩ := get_user_client_carries_own_credential aliceUser demoSettings
  exact ⟨h1, h2 bobUser (by decide)⟩

/-- C2: `raise_if_not_admin` fails with HTTP 403 for every identity whose
`has_admin_role` is false, and for every identity whose roles were never
resolved (`keycloak_roles = none`) — it fails closed. -/
theorem raise_if_not_admin_fails_closed (u : AuthenticatedUser)
    (s : Settings) :
    (u.has_admin_role s = false →
      u.raise_if_not_admin s =
        .error { status_code := 403, detail := "User does not have admin role" }) ∧
    (u.keycloak_roles = none →
      u.raise_if_not_admin s =
        .error { status_code := 403, detail := "User does not have admin role" }) := by
  constructor
  · intro h
    simp [AuthenticatedUser.raise_if_not_admin, h]
  · intro h
    simp [AuthenticatedUser.raise_if_not_admin, AuthenticatedUser.has_admin_role, h]

/-- Witness for C2: `aliceUser` was built without role resolution and is
rejected with 403. -/
theorem raise_if_not_admin_fails_closed_witness :
    aliceUser.raise_if_not_admin demoSettings =
      .error { status_code := 403, detail := "User does not have admin role" } :=
  (raise_if_not_admin_fails_closed aliceUser demoSettings).2 rfl

/-- C4: `has_admin_role` is true iff the resolved role list contains a role
whose name equals (case-sensitively, by string equality) the configured
admin-role name; absent roles give false. -/
theorem has_admin_role_iff (u : AuthenticatedUser) (s : Settings) :
    (u.has_admin_role s = true ↔
      ∃ roles, u.keycloak_roles = some roles ∧
        ∃ r ∈ roles, r.name = s.admin_role_name) ∧
    (u.keycloak_roles = none → u.has_admin_role s = false) := by
  constructor
  · cases h : u.keycloak_roles with
    | none => simp [AuthenticatedUser.has_admin_role, h]
    | some roles =>
      cases roles with
      | nil => simp [AuthenticatedUser.has_admin_role, h]
      | cons r rs =>
        simp [AuthenticatedUser.has_admin_role, h, List.any_eq_true]
  · intro h
    simp [AuthenticatedUser.has_admin_role, h]

/-- Witness for C4: a user holding the default admin role is admin. -/
theorem has_admin_role_iff_witness :
    adminUser.has_admin_role demoSettings = true :=
  ((has_admin_role_iff adminUser demoSettings).1).mpr
    ⟨[adminKeycloakRole], rfl, adminKeycloakRole, by decide, rfl⟩

/-- Counterexample for C5: at a concrete credential, the 401 returned to
the caller has the identity backend's raw error string verbatim as its
detail, so the response does contain the raw upstream error. -/
theorem auth_response_contains_raw_upstream_error :
    (_get_authenticated_user demoSettings leakWorld "tok-X" false).1 =
      .error { status_code := 401,
               detail := "RAW-UPSTREAM-ERROR: JWT signature rejected by identity backend" } := by
  decide

/-- C5 (amended): when any hop of the authentication chain fails —
identity verification, token exchange, role lookup, or role-payload
validation — the caller receives status 401 uniformly, but the response
detail is exactly the failing hop's stringified error, so the raw
upstream error (and thereby which hop failed) is exposed to the caller. -/
theorem auth_error_detail_is_raw_cause (s : Settings) (w : World)
    (c : String) :
    (∀ (fr : Bool) (msg : String), w.getUser c = .error msg →
      (_get_authenticated_user s w c fr).1 =
        .error { status_code := 401, detail := msg }) ∧
    (∀ (u : UserResponse) (pid iss msg : String),
      w.getUser c = .ok u →
      u.user.user_metadata.lookup "provider_id" = some pid →
      u.user.user_metadata.lookup "iss" = some iss →
      (get_keycloak_token w iss s.keycloak_client_id
        s.keycloak_client_secret).1 = .error msg →
      (_get_authenticated_user s w c true).1 =
        .error { status_code := 401, detail := msg }) ∧
    (∀ (u : UserResponse) (pid iss tok msg : String),
      w.getUser c = .ok u →
      u.user.user_metadata.lookup "provider_id" = some pid →
      u.user.user_metadata.lookup "iss" = some iss →
      (get_keycloak_token w iss s.keycloak_client_id
        s.keycloak_client_secret).1 = .ok tok →
      (get_keycloak_user_roles w iss tok pid).1 = .error msg →
      (_get_authenticated_user s w c true).1 =
        .error { status_code := 401, detail := msg }) ∧
    (∀ (u : UserResponse) (pid iss tok : String) (raws : List RawRole)
        (msg : String),
      w.getUser c = .ok u →
      u.user.user_metadata.lookup "provider_id" = some pid →
      u.user.user_metadata.lookup "iss" = some iss →
      (get_keycloak_token w iss s.keycloak_client_id
        s.keycloak_client_secret).1 = .ok tok →
      (get_keycloak_user_roles w iss tok pid).1 = .ok raws →
      parseRoles raws = .error msg →
      (_get_authenticated_user s w c true).1 =
        .error { status_code := 401, detail := msg }) := by
  refine ⟨?_, ?_, ?_, ?_⟩
  · intro fr msg h
    simp [_get_authenticated_user, h]
  · intro u pid iss msg hu hp hi htk
    cases htok : get_keycloak_token w iss s.keycloak_client_id
        s.keycloak_client_secret with
    | mk tres tevs =>
      rw [htok] at htk
      simp at htk
      subst htk
      simp [_get_authenticated_user, hu, hp, hi, htok]
  · intro u pid iss tok msg hu hp hi htk hrl
    cases htok : get_keycloak_token w iss s.keycloak_client_id
        s.keycloak_client_secret with
    | mk tres tevs =>
      rw [htok] at htk
      simp at htk
      subst htk
      cases hroles : get_keycloak_user_roles w iss tok pid with
      | mk rres revs =>
        rw [hroles] at hrl
        simp at hrl
        subst hrl
        simp [_get_authenticated_user, hu, hp, hi, htok, hroles]
  · intro u pid iss tok raws msg hu hp hi htk hrl hpr
    cases htok : get_keycloak_token w iss s.keycloak_client_id
        s.keycloak_client_secret with
    | mk tres tevs =>
      rw [htok] at htk
      simp at htk
      subst htk
      cases hroles : get_keycloak_user_roles w iss tok pid with
      | mk rres revs =>
        rw [hroles] at hrl
        simp at hrl
        subst hrl
        simp [_get_authenticated_user, hu, hp, hi, htok, hroles, hpr]

/-- Witness for the amended C5: one concrete run per failing hop —
identity verification, token exchange (503), role lookup (500), and role
parsing — each exposing its raw error string as the 401 detail. -/
theorem auth_error_detail_is_raw_cause_witness :
    (_get_authenticated_user demoSettings leakWorld "tok-X" true).1 =
      .error { status_code := 401,
               detail := "RAW-UPSTREAM-ERROR: JWT signature rejected by identity backend" } ∧
    (_get_authenticated_user demoSettings tokenDownWorld "tok-A" true).1 =
      .error { status_code := 401, detail := "HTTP status error 503" } ∧
    (_get_authenticated_user demoSettings rolesDownWorld "tok-A" true).1 =
      .error { status_code := 401, detail := "HTTP status error 500" } ∧
    (_get_authenticated_user demoSettings badRoleWorld "tok-A" true).1 =
      .error { status_code := 401,
               detail := "validation error: field required: name" } := by
  refine ⟨?_, ?_, ?_, ?_⟩
  · exact (auth_error_detail_is_raw_cause demoSettings leakWorld "tok-X").1
      true _ rfl
  · exact (auth_error_detail_is_raw_cause demoSettings tokenDownWorld
      "tok-A").2.1 userResponseA "sub-1" "https://idp/realms/r1" _
      (by decide) (by decide) (by decide) (by decide)
  · exact (auth_error_detail_is_raw_cause demoSettings rolesDownWorld
      "tok-A").2.2.1 userResponseA "sub-1" "https://idp/realms/r1"
      "admin-tok" _ (by decide) (by decide) (by decide) (by decide)
      (by decide)
  · exact (auth_error_detail_is_raw_cause demoSettings badRoleWorld
      "tok-A").2.2.2 userResponseA "sub-1" "https://idp/realms/r1"
      "admin-tok" [adminRawRole, namelessRawRole] _ (by decide)
      (by decide) (by decide) (by decide) (by decide) (by decide)

/-- C6: for every credential the identity backend accepts,
`fetch_roles = false` yields an `AuthenticatedUser` with roles absent and
the only outbound call is the identity-backend verification — no token
exchange, no role lookup. -/
theorem authenticate_without_roles_skips_auth_server (s : Settings)
    (w : World) (c : String) (u : UserResponse)
    (h : w.getUser c = .ok u) :
    _get_authenticated_user s w c false =
      (.ok { token := c, user := u, keycloak_roles := none },
       [CallEvent.getUser c]) ∧
    ∀ ev ∈ (_get_authenticated_user s w c false).2,
      ev.isAuthServerCall = false := by
  have hmain : _get_authenticated_user s w c false =
      (.ok { token := c, user := u, keycloak_roles := none },
       [CallEvent.getUser c]) := by
    simp [_get_authenticated_user, h]
  refine ⟨hmain, ?_⟩
  rw [hmain]
  intro ev hev
  simp at hev
  subst hev
  rfl

/-- Witness for C6 at the concrete world `happyWorld`. -/
theorem authenticate_without_roles_skips_auth_server_witness :
    _get_authenticated_user demoSettings happyWorld "tok-A" false =
      (.ok { token := "tok-A", user := userResponseA, keycloak_roles := none },
       [CallEvent.getUser "tok-A"]) :=
  (authenticate_without_roles_skips_auth_server demoSettings happyWorld
    "tok-A" userResponseA (by decide)).1

/-- C7: for every accepted credential whose identity-record metadata lacks
`iss` or `provider_id`, authentication with roles fails with 401 and no
authorization-server call is performed. -/
theorem authenticate_missing_metadata_fails_before_auth_server (s : Settings)
    (w : World) (c : String) (u : UserResponse)
    (hu : w.getUser c = .ok u)
    (hmd : u.user.user_metadata.lookup "iss" = none ∨
           u.user.user_metadata.lookup "provider_id" = none) :
    (∃ e, (_get_authenticated_user s w c true).1 = .error e ∧
      e.status_code = 401) ∧
    ∀ ev ∈ (_get_authenticated_user s w c true).2,
      ev.isAuthServerCall = false := by
  cases hp : u.user.user_metadata.lookup "provider_id" with
  | none =>
    have hres : _get_authenticated_user s w c true =
        (.error { status_code := 401, detail := "KeyError: provider_id" },
         [CallEvent.getUser c]) := by
      simp [_get_authenticated_user, hu, hp]
    refine ⟨⟨{ status_code := 401, detail := "KeyError: provider_id" },
      by rw [hres], rfl⟩, ?_⟩
    rw [hres]
    intro ev hev
    simp at hev
    subst hev
    rfl
  | some pid =>
    have hiss : u.user.user_metadata.lookup "iss" = none := by
      rcases hmd with h | h
      · exact h
      · rw [hp] at h
        cases h
    have hres : _get_authenticated_user s w c true =
        (.error { status_code := 401, detail := "KeyError: iss" },
         [CallEvent.getUser c]) := by
      simp [_get_authenticated_user, hu, hp, hiss]
    refine ⟨⟨{ status_code := 401, detail := "KeyError: iss" },
      by rw [hres], rfl⟩, ?_⟩
    rw [hres]
    intro ev hev
    simp at hev
    subst hev
    rfl

/-- Witness for C7: `"tok-B"` verifies to a record lacking `iss`. -/
theorem authenticate_missing_metadata_witness :
    (∃ e, (_get_authenticated_user demoSettings noIssWorld "tok-B" true).1 =
        .error e ∧ e.status_code = 401) ∧
    ∀ ev ∈ (_get_authenticated_user demoSettings noIssWorld "tok-B" true).2,
      ev.isAuthServerCall = false :=
  authenticate_missing_metadata_fails_before_auth_server demoSettings
    noIssWorld "tok-B" userResponseNoIss (by decide) (Or.inl (by decide))

/-- Every run of the pipeline either fails with a 401 `HTTPException` or
succeeds with an `AuthenticatedUser` that keeps the supplied credential and
whose roles are populated exactly when `fetch_roles` was true. -/
theorem auth_result_cases (s : Settings) (w : World) (c : String) (fr : Bool) :
    (∃ d, (_get_authenticated_user s w c fr).1 =
        .error { status_code := 401, detail := d }) ∨
    (∃ u, (_get_authenticated_user s w c fr).1 = .ok u ∧ u.token = c ∧
      ((fr = false ∧ u.keycloak_roles = none) ∨
       (fr = true ∧ ∃ ks, u.keycloak_roles = some ks))) := by
  cases hg : w.getUser c with
  | error msg => exact .inl ⟨msg, by simp [_get_authenticated_user, hg]⟩
  | ok user =>
    cases fr with
    | false =>
      exact .inr ⟨{ token := c, user := user, keycloak_roles := none },
        by simp [_get_authenticated_user, hg], rfl, .inl ⟨rfl, rfl⟩⟩
    | true =>
      cases hp : List.lookup "provider_id" user.user.user_metadata with
      | none =>
        exact .inl ⟨"KeyError: provider_id",
          by simp [_get_authenticated_user, hg, hp]⟩
      | some pid =>
        cases hi : List.lookup "iss" user.user.user_metadata with
        | none =>
          exact .inl ⟨"KeyError: iss",
            by simp [_get_authenticated_user, hg, hp, hi]⟩
        | some iss =>
          cases htok : get_keycloak_token w iss s.keycloak_client_id
              s.keycloak_client_secret with
          | mk tres tevs =>
            cases tres with
            | error msg =>
              exact .inl ⟨msg,
                by simp [_get_authenticated_user, hg, hp, hi, htok]⟩
            | ok tok =>
              cases hroles : get_keycloak_user_roles w iss tok pid with
              | mk rres revs =>
                cases rres with
                | error msg =>
                  exact .inl ⟨msg,
                    by simp [_get_authenticated_user, hg, hp, hi, htok, hroles]⟩
                | ok raws =>
                  cases hpr : parseRoles raws with
                  | error msg =>
                    exact .inl ⟨msg,
                      by simp [_get_authenticated_user, hg, hp, hi, htok,
                               hroles, hpr]⟩
                  | ok ks =>
                    refine .inr ⟨{ token := c, user := user, keycloak_roles := some ks }, ?_, rfl, .inr ⟨rfl, ks, rfl⟩⟩
                    simp [_get_authenticated_user, hg, hp, hi, htok, hroles, hpr]

/-- C3: every failure inside the pipeline is re-signaled as HTTP 401, for
both values of `fetch_roles`, and a successful `fetch_roles = true` run
always carries resolved roles — there is no silent downgrade to a
roles-absent identity. -/
theorem authenticate_resignals_uniformly_401 (s : Settings) (w : World)
    (c : String) (fr : Bool) :
    (∀ e, (_get_authenticated_user s w c fr).1 = .error e →
      e.status_code = 401) ∧
    (∀ u, (_get_authenticated_user s w c true).1 = .ok u →
      u.keycloak_roles.isSome = true) := by
  constructor
  · intro e he
    rcases auth_result_cases s w c fr with ⟨d, hd⟩ | ⟨u, hu, _⟩
    · rw [hd] at he
      injection he with h2
      rw [← h2]
    · rw [hu] at he
      exact Except.noConfusion he
  · intro u hu
    rcases auth_result_cases s w c true with ⟨d, hd⟩ | ⟨v, hv, _, hk⟩
    · rw [hd] at hu
      exact Except.noConfusion hu
    · rw [hv] at hu
      injection hu with h2
      subst h2
      rcases hk with ⟨hfr, _⟩ | ⟨_, ks, hks⟩
      · simp at hfr
      · simp [hks]

/-- Witness for C3: a role lookup answering HTTP 500 surfaces to the
caller as 401, not 500. -/
theorem authenticate_resignals_uniformly_401_witness :
    (_get_authenticated_user demoSettings rolesDownWorld "tok-A" true).1 =
      .error { status_code := 401, detail := "HTTP status error 500" } ∧
    ({ status_code := 401, detail := "HTTP status error 500" } :
      HTTPException).status_code = 401 :=
  ⟨by decide,
   (authenticate_resignals_uniformly_401 demoSettings rolesDownWorld
      "tok-A" true).1
     { status_code := 401, detail := "HTTP status error 500" } (by decide)⟩

/-- C10: an `AuthenticatedUser` produced by the pipeline holds exactly the
bearer credential that was supplied, for both values of `fetch_roles`, so
the scoped client built from it embeds the caller's original token. -/
theorem authenticate_preserves_credential (s : Settings) (w : World)
    (c : String) (fr : Bool) (u : AuthenticatedUser)
    (h : (_get_authenticated_user s w c fr).1 = .ok u) :
    u.token = c ∧
    (get_user_client u s).options.headers =
      [("Authorization", "Bearer " ++ c)] := by
  rcases auth_result_cases s w c fr with ⟨d, hd⟩ | ⟨v, hv, hvt, _⟩
  · rw [hd] at h
    exact Except.noConfusion h
  · rw [hv] at h
    injection h with h2
    subst h2
    exact ⟨hvt, by simp [get_user_client, hvt]⟩

/-- Witness for C10 on the fully successful `happyWorld` run. -/
theorem authenticate_preserves_credential_witness :
    adminUser.token = "tok-A" ∧
    (get_user_client adminUser demoSettings).options.headers =
      [("Authorization", "Bearer " ++ "tok-A")] :=
  authenticate_preserves_credential demoSettings happyWorld "tok-A" true
    adminUser (by decide)

/-- A role entry missing a required field fails the whole parse. -/
theorem parseRoles_error_of_bad_entry (roles : List RawRole)
    (hbad : ∃ r ∈ roles, r.id = none ∨ r.name = none) :
    ∃ e, parseRoles roles = .error e := by
  induction roles with
  | nil => simp at hbad
  | cons r rs ih =>
    rcases hbad with ⟨x, hx, hxbad⟩
    rcases List.mem_cons.mp hx with hxr | hxrs
    · subst hxr
      have hv : ∃ e, KeycloakRole.validate x = .error e := by
        rcases hxbad with h | h
        · exact ⟨"validation error: field required: id",
            by simp [KeycloakRole.validate, h]⟩
        · cases hid : x.id with
          | none => exact ⟨"validation error: field required: id",
              by simp [KeycloakRole.validate, hid]⟩
          | some i => exact ⟨"validation error: field required: name",
              by simp [KeycloakRole.validate, hid, h]⟩
      obtain ⟨e, he⟩ := hv
      exact ⟨e, by simp [parseRoles, he]⟩
    · obtain ⟨e, he⟩ := ih ⟨x, hxrs, hxbad⟩
      cases hv : KeycloakRole.validate r with
      | error e2 => exact ⟨e2, by simp [parseRoles, hv]⟩
      | ok k => exact ⟨e, by simp [parseRoles, hv, he]⟩

/-- A successful parse validates every entry, in order, dropping none. -/
theorem parseRoles_ok_pointwise (roles : List RawRole)
    (parsed : List KeycloakRole) (h : parseRoles roles = .ok parsed) :
    roles.map KeycloakRole.validate = parsed.map Except.ok := by
  induction roles generalizing parsed with
  | nil =>
    simp [parseRoles] at h
    subst h
    simp
  | cons r rs ih =>
    cases hv : KeycloakRole.validate r with
    | error e => simp [parseRoles, hv] at h
    | ok k =>
      cases hrs : parseRoles rs with
      | error e => simp [parseRoles, hv, hrs] at h
      | ok ks =>
        simp [parseRoles, hv, hrs] at h
        subst h
        simp [hv, ih ks hrs]

/-- A bad role entry in the payload fails the whole request with 401. -/
theorem parse_failure_propagates_as_401 (roles : List RawRole) (s : Settings)
    (w : World) (c : String) (u : UserResponse) (pid iss tok : String)
    (hu : w.getUser c = .ok u)
    (hp : u.user.user_metadata.lookup "provider_id" = some pid)
    (hi : u.user.user_metadata.lookup "iss" = some iss)
    (hpt : w.postToken (token_url iss) s.keycloak_client_id
      s.keycloak_client_secret = { status := 200, access_token := some tok })
    (hgr : w.getRoles (role_mapper_url iss pid) ("Bearer " ++ tok)
      = { status := 200, body := some roles })
    (hbad : ∃ r ∈ roles, r.id = none ∨ r.name = none) :
    ∃ e, (_get_authenticated_user s w c true).1 = .error e ∧
      e.status_code = 401 := by
  obtain ⟨msg, hmsg⟩ := parseRoles_error_of_bad_entry roles hbad
  refine ⟨{ status_code := 401, detail := msg }, ?_, rfl⟩
  simp [_get_authenticated_user, hu, hp, hi, get_keycloak_token,
        get_keycloak_user_roles, hpt, hgr, hmsg, is2xx]

/-- C8: the role resolver validates the JSON array into typed roles; an
entry missing a required field (`id` or `name`) makes the whole operation
fail — surfacing as 401 at the pipeline boundary — rather than the entry
being silently dropped or passed through unvalidated (a successful parse
validates every entry pointwise, preserving order and count). -/
theorem role_payload_validation_is_strict (roles : List RawRole) :
    ((∃ r ∈ roles, r.id = none ∨ r.name = none) →
      ∃ e, parseRoles roles = .error e) ∧
    (∀ parsed, parseRoles roles = .ok parsed →
      roles.map KeycloakRole.validate = parsed.map Except.ok) ∧
    (∀ (s : Settings) (w : World) (c : String) (u : UserResponse)
        (pid iss tok : String),
      w.getUser c = .ok u →
      u.user.user_metadata.lookup "provider_id" = some pid →
      u.user.user_metadata.lookup "iss" = some iss →
      w.postToken (token_url iss) s.keycloak_client_id
        s.keycloak_client_secret =
          { status := 200, access_token := some tok } →
      w.getRoles (role_mapper_url iss pid) ("Bearer " ++ tok)
        = { status := 200, body := some roles } →
      (∃ r ∈ roles, r.id = none ∨ r.name = none) →
      ∃ e, (_get_authenticated_user s w c true).1 = .error e ∧
        e.status_code = 401) :=
  ⟨parseRoles_error_of_bad_entry roles,
   parseRoles_ok_pointwise roles,
   fun s w c u pid iss tok hu hp hi hpt hgr hbad =>
     parse_failure_propagates_as_401 roles s w c u pid iss tok
       hu hp hi hpt hgr hbad⟩

/-- Witness for C8: a payload whose second entry lacks `name` aborts the
parse, and the pipeline answers 401 in `badRoleWorld`. -/
theorem role_payload_validation_is_strict_witness :
    (∃ e, parseRoles [adminRawRole, namelessRawRole] = .error e) ∧
    ∃ e, (_get_authenticated_user demoSettings badRoleWorld "tok-A" true).1 =
        .error e ∧ e.status_code = 401 := by
  obtain ⟨h1, _, h3⟩ :=
    role_payload_validation_is_strict [adminRawRole, namelessRawRole]
  refine ⟨h1 ?_, h3 demoSettings badRoleWorld "tok-A" userResponseA
    "sub-1" "https://idp/realms/r1" "admin-tok" ?_ ?_ ?_ ?_ ?_ ?_⟩
  all_goals decide

/-- Counterexample for C9: for the issuer URL "https://idp/realms/r1/"
(trailing slash) the GET actually issued by the role resolver is not the
one obtained by substituting the realm path segment and leaving the rest
of the URL unchanged — the code also strips trailing slashes. -/
theorem role_resolver_url_differs_from_spec :
    (get_keycloak_user_roles rolesDownWorld "https://idp/realms/r1/"
        "admin-tok" "sub-1").2 ≠
      [CallEvent.getRoles
        (spec_role_mapper_url "https://idp/realms/r1/" "sub-1")
        ("Bearer " ++ "admin-tok")] := by
  decide

/-- C9 (amended): the role resolver issues exactly one GET, to the URL
obtained by replacing every occurrence of "/realms" with "/admin/realms"
in the issuer URL and stripping trailing slashes, then appending the
/users/{id}/role-mappings/realm path; the admin token is sent as bearer
authorization, and a non-2xx response fails the operation. -/
theorem role_resolver_request_shape (w : World) (url tok uid : String) :
    (get_keycloak_user_roles w url tok uid).2 =
      [CallEvent.getRoles
        (pyRstripSlash (pyReplace url "/realms" "/admin/realms")
          ++ "/users/" ++ uid ++ "/role-mappings/realm")
        ("Bearer " ++ tok)] ∧
    (is2xx (w.getRoles (role_mapper_url url uid) ("Bearer " ++ tok)).status
        = false →
      ∃ e, (get_keycloak_user_roles w url tok uid).1 = .error e) := by
  constructor
  · rfl
  · intro h
    exact ⟨"HTTP status error " ++
      toString (w.getRoles (role_mapper_url url uid)
        ("Bearer " ++ tok)).status,
      by simp [get_keycloak_user_roles, h]⟩

/-- Witness for the amended C9 in `rolesDownWorld`, where the role lookup
answers HTTP 500. -/
theorem role_resolver_request_shape_witness :
    (get_keycloak_user_roles rolesDownWorld "https://idp/realms/r1"
        "admin-tok" "sub-1").2 =
      [CallEvent.getRoles
        (pyRstripSlash
          (pyReplace "https://idp/realms/r1" "/realms" "/admin/realms")
          ++ "/users/" ++ "sub-1" ++ "/role-mappings/realm")
        ("Bearer " ++ "admin-tok")] ∧
    ∃ e, (get_keycloak_user_roles rolesDownWorld "https://idp/realms/r1"
        "admin-tok" "sub-1").1 = .error e := by
  obtain ⟨h1, h2⟩ := role_resolver_request_shape rolesDownWorld
    "https://idp/realms/r1" "admin-tok" "sub-1"
  exact ⟨h1, h2 (by decide)⟩
